import Mathlib

/-!
Verification of the prisma-extension-pgmq client library.

The embedding models the three layers of the library:
  * the Operation Layer (src/pgmq.ts): stateless functions taking a
    transactional handle and issuing exactly one parametrized query;
  * the Convenience Client and Bound Client Facade (src/client.ts):
    PrismaPGMQ and PGMQTransactionClient;
  * the Prisma extension namespace (src/pgmq-extension.ts).

The external engine is an oracle: a structure of state-passing query
functions, one per result-row shape (mirroring the typed result cast
each call site places on the raw query).  Every Operation Layer
function returns its result together with the successor state and the
list of queries it issued, so round-trip counts are part of the model.
-/

namespace Pgmq

/-- A payload document (TS type Task = Record of string to unknown),
modelled as an association list of scalar fields. -/
abbrev Task := List (String × Int)

/-- A message record row: msg_id, read_ct, enqueued_at, vt, message
(timestamps modelled as integers). -/
structure MessageRecord where
  msg_id : Int
  read_ct : Int
  enqueued_at : Int
  vt : Int
  message : Task
  deriving Repr, DecidableEq

/-- A queue metrics row. -/
structure QueueMetrics where
  queue_name : String
  queue_length : Int
  newest_msg_age_sec : Option Int
  oldest_msg_age_sec : Option Int
  total_messages : Int
  scrape_time : Int
  deriving Repr, DecidableEq

/-- A queue info row. -/
structure QueueInfo where
  queue_name : String
  created_at : Int
  is_partitioned : Bool
  is_unlogged : Bool
  deriving Repr, DecidableEq

/-- One positional parameter of an engine query, tagged with the way the
source interpolates it (plain, with an integer cast, with an integer
array cast, ...). -/
inductive Arg where
  | queue (name : String)
  | payload (t : Task)
  | payloads (ts : List Task)
  | intCast (n : Int)
  | intArrayCast (ns : List Int)
  | task (t : Task)
  | dateArg (d : Int)
  | strArg (s : String)
  deriving Repr, DecidableEq

/-- One parametrized call to the external engine: the engine primitive
name and its positional arguments. -/
structure Query where
  fname : String
  args : List Arg
  deriving Repr, DecidableEq

/-- The delay argument of send and sendBatch (TS type number | Date). -/
inductive DelayArg where
  | secs (n : Int)
  | instant (d : Int)
  deriving Repr, DecidableEq

/-- JavaScript truthiness of the optional delay value: undefined and the
number 0 are falsy, every other number and every Date object is truthy. -/
def delayTruthy : Option DelayArg → Bool
  | none => false
  | some (DelayArg.secs n) => if n = 0 then false else true
  | some (DelayArg.instant _) => true

/-- The delay arguments appended to a send or sendBatch query: the source
appends the delay parameter only when the delay value is truthy, casting
numbers to integer and passing Date values plain. -/
def delayArgs (d : Option DelayArg) : List Arg :=
  if delayTruthy d then
    match d with
    | some (DelayArg.secs n) => [Arg.intCast n]
    | some (DelayArg.instant t) => [Arg.dateArg t]
    | none => []
  else []

/-- The error taxonomy visible to callers: failures produced by the
external engine (Prisma error classes, passed through verbatim) and
failures the client itself constructs when the engine returns zero rows
where one is required (a plain Error carrying a distinctive message).
The two are distinguishable programmatically. -/
inductive Err where
  | engine (msg : String)
  | protocol (msg : String)
  deriving Repr, DecidableEq

/-- The external engine as a state-passing oracle.  One query function
per result-row shape, mirroring the typed cast each call site in
src/pgmq.ts places on the rows it gets back, plus the executeRaw entry
used by the void queue-management calls. -/
structure Engine (σ : Type) where
  queryIntRows : Query → σ → Except String (List Int) × σ
  queryBoolRows : Query → σ → Except String (List Bool) × σ
  queryMsgRows : Query → σ → Except String (List MessageRecord) × σ
  queryMetricsRows : Query → σ → Except String (List QueueMetrics) × σ
  queryInfoRows : Query → σ → Except String (List QueueInfo) × σ
  executeRaw : Query → σ → Except String Int × σ

/-- The outcome of one operation: the caller-visible result, the
successor engine state, and the trace of queries issued. -/
abbrev TxResult (σ α : Type) := Except Err α × σ × List Query

/-- A computation against the engine inside one transaction handle. -/
abbrev TxComp (σ α : Type) := σ → TxResult σ α

-- Queries built by the Operation Layer, one per function in src/pgmq.ts,
-- each recording the engine primitive and the positional argument list
-- exactly as the source interpolates them.

def sendQuery (queueName : String) (msg : Task) (delay : Option DelayArg) : Query :=
  ⟨"pgmq.send", [Arg.queue queueName, Arg.payload msg] ++ delayArgs delay⟩

def sendBatchQuery (queueName : String) (msgs : List Task) (delay : Option DelayArg) : Query :=
  ⟨"pgmq.send_batch", [Arg.queue queueName, Arg.payloads msgs] ++ delayArgs delay⟩

def readQuery (queueName : String) (vt qty : Int) (conditional : Task) : Query :=
  ⟨"pgmq.read", [Arg.queue queueName, Arg.intCast vt, Arg.intCast qty, Arg.task conditional]⟩

def readWithPollQuery (queueName : String) (vt qty maxPollSeconds pollIntervalMs : Int)
    (conditional : Task) : Query :=
  ⟨"pgmq.read_with_poll",
    [Arg.queue queueName, Arg.intCast vt, Arg.intCast qty, Arg.intCast maxPollSeconds,
      Arg.intCast pollIntervalMs, Arg.task conditional]⟩

def popQuery (queueName : String) : Query :=
  ⟨"pgmq.pop", [Arg.queue queueName]⟩

def deleteMessageQuery (queueName : String) (msgId : Int) : Query :=
  ⟨"pgmq.delete", [Arg.queue queueName, Arg.intCast msgId]⟩

def deleteBatchQuery (queueName : String) (msgIds : List Int) : Query :=
  ⟨"pgmq.delete", [Arg.queue queueName, Arg.intArrayCast msgIds]⟩

def purgeQueueQuery (queueName : String) : Query :=
  ⟨"pgmq.purge_queue", [Arg.queue queueName]⟩

def archiveQuery (queueName : String) (msgId : Int) : Query :=
  ⟨"pgmq.archive", [Arg.queue queueName, Arg.intCast msgId]⟩

def archiveBatchQuery (queueName : String) (msgIds : List Int) : Query :=
  ⟨"pgmq.archive", [Arg.queue queueName, Arg.intArrayCast msgIds]⟩

def createQueueQuery (queueName : String) : Query :=
  ⟨"pgmq.create", [Arg.queue queueName]⟩

def createPartitionedQueueQuery (queueName partitionInterval retentionInterval : String) : Query :=
  ⟨"pgmq.create_partitioned",
    [Arg.queue queueName, Arg.strArg partitionInterval, Arg.strArg retentionInterval]⟩

def createUnloggedQueueQuery (queueName : String) : Query :=
  ⟨"pgmq.create_unlogged", [Arg.queue queueName]⟩

def detachArchiveQuery (queueName : String) : Query :=
  ⟨"pgmq.detach_archive", [Arg.queue queueName]⟩

def dropQueueQuery (queueName : String) : Query :=
  ⟨"pgmq.drop_queue", [Arg.queue queueName]⟩

def setVtQuery (queueName : String) (msgId vtOffset : Int) : Query :=
  ⟨"pgmq.set_vt", [Arg.queue queueName, Arg.intCast msgId, Arg.intCast vtOffset]⟩

def listQueuesQuery : Query := ⟨"pgmq.list_queues", []⟩

def metricsQuery (queueName : String) : Query :=
  ⟨"pgmq.metrics", [Arg.queue queueName]⟩

def metricsAllQuery : Query := ⟨"pgmq.metrics_all", []⟩

-- The Operation Layer (src/pgmq.ts).  Each function issues exactly one
-- query; the single-row functions take result[0] and throw a plain Error
-- when the engine returned zero rows, the list functions pass the rows
-- through (mapping each row to its single column, the identity here).

def send {σ : Type} (tx : Engine σ) (queueName : String) (msg : Task)
    (delay : Option DelayArg := none) : TxComp σ Int := fun s =>
  let reply := tx.queryIntRows (sendQuery queueName msg delay) s
  let res : Except Err Int :=
    match reply.1 with
    | Except.error e => Except.error (Err.engine e)
    | Except.ok [] => Except.error (Err.protocol "No result returned from pgmq.send")
    | Except.ok (r :: _) => Except.ok r
  (res, reply.2, [sendQuery queueName msg delay])

def sendBatch {σ : Type} (tx : Engine σ) (queueName : String) (msgs : List Task)
    (delay : Option DelayArg := none) : TxComp σ (List Int) := fun s =>
  let reply := tx.queryIntRows (sendBatchQuery queueName msgs delay) s
  let res : Except Err (List Int) :=
    match reply.1 with
    | Except.error e => Except.error (Err.engine e)
    | Except.ok rows => Except.ok rows
  (res, reply.2, [sendBatchQuery queueName msgs delay])

def read {σ : Type} (tx : Engine σ) (queueName : String) (vt : Int) (qty : Int := 1)
    (conditional : Task := []) : TxComp σ (List MessageRecord) := fun s =>
  let reply := tx.queryMsgRows (readQuery queueName vt qty conditional) s
  let res : Except Err (List MessageRecord) :=
    match reply.1 with
    | Except.error e => Except.error (Err.engine e)
    | Except.ok rows => Except.ok rows
  (res, reply.2, [readQuery queueName vt qty conditional])

def readWithPoll {σ : Type} (tx : Engine σ) (queueName : String) (vt : Int) (qty : Int := 1)
    (maxPollSeconds : Int := 5) (pollIntervalMs : Int := 100) (conditional : Task := []) :
    TxComp σ (List MessageRecord) := fun s =>
  let reply :=
    tx.queryMsgRows (readWithPollQuery queueName vt qty maxPollSeconds pollIntervalMs conditional) s
  let res : Except Err (List MessageRecord) :=
    match reply.1 with
    | Except.error e => Except.error (Err.engine e)
    | Except.ok rows => Except.ok rows
  (res, reply.2, [readWithPollQuery queueName vt qty maxPollSeconds pollIntervalMs conditional])

def pop {σ : Type} (tx : Engine σ) (queueName : String) : TxComp σ (List MessageRecord) := fun s =>
  let reply := tx.queryMsgRows (popQuery queueName) s
  let res : Except Err (List MessageRecord) :=
    match reply.1 with
    | Except.error e => Except.error (Err.engine e)
    | Except.ok rows => Except.ok rows
  (res, reply.2, [popQuery queueName])

def deleteMessage {σ : Type} (tx : Engine σ) (queueName : String) (msgId : Int) :
    TxComp σ Bool := fun s =>
  let reply := tx.queryBoolRows (deleteMessageQuery queueName msgId) s
  let res : Except Err Bool :=
    match reply.1 with
    | Except.error e => Except.error (Err.engine e)
    | Except.ok [] => Except.error (Err.protocol "No result returned from pgmq.delete")
    | Except.ok (r :: _) => Except.ok r
  (res, reply.2, [deleteMessageQuery queueName msgId])

def deleteBatch {σ : Type} (tx : Engine σ) (queueName : String) (msgIds : List Int) :
    TxComp σ (List Int) := fun s =>
  let reply := tx.queryIntRows (deleteBatchQuery queueName msgIds) s
  let res : Except Err (List Int) :=
    match reply.1 with
    | Except.error e => Except.error (Err.engine e)
    | Except.ok rows => Except.ok rows
  (res, reply.2, [deleteBatchQuery queueName msgIds])

def purgeQueue {σ : Type} (tx : Engine σ) (queueName : String) : TxComp σ Int := fun s =>
  let reply := tx.queryIntRows (purgeQueueQuery queueName) s
  let res : Except Err Int :=
    match reply.1 with
    | Except.error e => Except.error (Err.engine e)
    | Except.ok [] => Except.error (Err.protocol "No result returned from pgmq.purge_queue")
    | Except.ok (r :: _) => Except.ok r
  (res, reply.2, [purgeQueueQuery queueName])

def archive {σ : Type} (tx : Engine σ) (queueName : String) (msgId : Int) :
    TxComp σ Bool := fun s =>
  let reply := tx.queryBoolRows (archiveQuery queueName msgId) s
  let res : Except Err Bool :=
    match reply.1 with
    | Except.error e => Except.error (Err.engine e)
    | Except.ok [] => Except.error (Err.protocol "No result returned from pgmq.archive")
    | Except.ok (r :: _) => Except.ok r
  (res, reply.2, [archiveQuery queueName msgId])

def archiveBatch {σ : Type} (tx : Engine σ) (queueName : String) (msgIds : List Int) :
    TxComp σ (List Int) := fun s =>
  let reply := tx.queryIntRows (archiveBatchQuery queueName msgIds) s
  let res : Except Err (List Int) :=
    match reply.1 with
    | Except.error e => Except.error (Err.engine e)
    | Except.ok rows => Except.ok rows
  (res, reply.2, [archiveBatchQuery queueName msgIds])

def createQueue {σ : Type} (tx : Engine σ) (queueName : String) : TxComp σ Unit := fun s =>
  let reply := tx.executeRaw (createQueueQuery queueName) s
  let res : Except Err Unit :=
    match reply.1 with
    | Except.error e => Except.error (Err.engine e)
    | Except.ok _ => Except.ok ()
  (res, reply.2, [createQueueQuery queueName])

def createPartitionedQueue {σ : Type} (tx : Engine σ) (queueName : String)
    (partitionInterval : String := "10000") (retentionInterval : String := "100000") :
    TxComp σ Unit := fun s =>
  let reply :=
    tx.executeRaw (createPartitionedQueueQuery queueName partitionInterval retentionInterval) s
  let res : Except Err Unit :=
    match reply.1 with
    | Except.error e => Except.error (Err.engine e)
    | Except.ok _ => Except.ok ()
  (res, reply.2, [createPartitionedQueueQuery queueName partitionInterval retentionInterval])

def createUnloggedQueue {σ : Type} (tx : Engine σ) (queueName : String) : TxComp σ Unit := fun s =>
  let reply := tx.executeRaw (createUnloggedQueueQuery queueName) s
  let res : Except Err Unit :=
    match reply.1 with
    | Except.error e => Except.error (Err.engine e)
    | Except.ok _ => Except.ok ()
  (res, reply.2, [createUnloggedQueueQuery queueName])

def detachArchive {σ : Type} (tx : Engine σ) (queueName : String) : TxComp σ Unit := fun s =>
  let reply := tx.executeRaw (detachArchiveQuery queueName) s
  let res : Except Err Unit :=
    match reply.1 with
    | Except.error e => Except.error (Err.engine e)
    | Except.ok _ => Except.ok ()
  (res, reply.2, [detachArchiveQuery queueName])

def dropQueue {σ : Type} (tx : Engine σ) (queueName : String) : TxComp σ Bool := fun s =>
  let reply := tx.queryBoolRows (dropQueueQuery queueName) s
  let res : Except Err Bool :=
    match reply.1 with
    | Except.error e => Except.error (Err.engine e)
    | Except.ok [] => Except.error (Err.protocol "No result returned from pgmq.drop_queue")
    | Except.ok (r :: _) => Except.ok r
  (res, reply.2, [dropQueueQuery queueName])

def setVt {σ : Type} (tx : Engine σ) (queueName : String) (msgId vtOffset : Int) :
    TxComp σ MessageRecord := fun s =>
  let reply := tx.queryMsgRows (setVtQuery queueName msgId vtOffset) s
  let res : Except Err MessageRecord :=
    match reply.1 with
    | Except.error e => Except.error (Err.engine e)
    | Except.ok [] => Except.error (Err.protocol "No result returned from pgmq.set_vt")
    | Except.ok (r :: _) => Except.ok r
  (res, reply.2, [setVtQuery queueName msgId vtOffset])

def listQueues {σ : Type} (tx : Engine σ) : TxComp σ (List QueueInfo) := fun s =>
  let reply := tx.queryInfoRows listQueuesQuery s
  let res : Except Err (List QueueInfo) :=
    match reply.1 with
    | Except.error e => Except.error (Err.engine e)
    | Except.ok rows => Except.ok rows
  (res, reply.2, [listQueuesQuery])

def metrics {σ : Type} (tx : Engine σ) (queueName : String) : TxComp σ QueueMetrics := fun s =>
  let reply := tx.queryMetricsRows (metricsQuery queueName) s
  let res : Except Err QueueMetrics :=
    match reply.1 with
    | Except.error e => Except.error (Err.engine e)
    | Except.ok [] => Except.error (Err.protocol "No result returned from pgmq.metrics")
    | Except.ok (r :: _) => Except.ok r
  (res, reply.2, [metricsQuery queueName])

def metricsAll {σ : Type} (tx : Engine σ) : TxComp σ (List QueueMetrics) := fun s =>
  let reply := tx.queryMetricsRows metricsAllQuery s
  let res : Except Err (List QueueMetrics) :=
    match reply.1 with
    | Except.error e => Except.error (Err.engine e)
    | Except.ok rows => Except.ok rows
  (res, reply.2, [metricsAllQuery])

end Pgmq

open Pgmq

/-- Modelled from the spec: the Prisma client library's interactive
transaction entry point, which is outside this repository.  It opens one
atomic unit of work, hands the body a transaction handle, commits the
resulting state on normal return, and on any raised failure rolls the
state back to the initial one and re-raises the failure unchanged.  The
query trace is preserved either way (the queries were issued, committed
or not). -/
def prismaTransaction {σ α : Type} (prisma : Engine σ) (s : σ)
    (body : Engine σ → TxComp σ α) : TxResult σ α :=
  match body prisma s with
  | (Except.ok a, s2, tr) => (Except.ok a, s2, tr)
  | (Except.error e, _, tr) => (Except.error e, s, tr)

/-- The Bound Client Facade (class PGMQTransactionClient in
src/client.ts): a handle pinned to one open transaction client. -/
structure PGMQTransactionClient (σ : Type) where
  tx : Engine σ

/-- The Convenience Client (class PrismaPGMQ in src/client.ts), holding
the underlying Prisma client. -/
structure PrismaPGMQ (σ : Type) where
  prisma : Engine σ

-- Methods of PGMQTransactionClient: pure delegation to the Operation
-- Layer on the pinned handle, with the same defaults.

def PGMQTransactionClient.send {σ : Type} (c : PGMQTransactionClient σ) (queueName : String)
    (msg : Task) (delay : Option DelayArg := none) : TxComp σ Int :=
  Pgmq.send c.tx queueName msg delay

def PGMQTransactionClient.sendBatch {σ : Type} (c : PGMQTransactionClient σ) (queueName : String)
    (msgs : List Task) (delay : Option DelayArg := none) : TxComp σ (List Int) :=
  Pgmq.sendBatch c.tx queueName msgs delay

def PGMQTransactionClient.read {σ : Type} (c : PGMQTransactionClient σ) (queueName : String)
    (vt : Int) (qty : Int := 1) (conditional : Task := []) : TxComp σ (List MessageRecord) :=
  Pgmq.read c.tx queueName vt qty conditional

def PGMQTransactionClient.readWithPoll {σ : Type} (c : PGMQTransactionClient σ)
    (queueName : String) (vt : Int) (qty : Int := 1) (maxPollSeconds : Int := 5)
    (pollIntervalMs : Int := 100) (conditional : Task := []) : TxComp σ (List MessageRecord) :=
  Pgmq.readWithPoll c.tx queueName vt qty maxPollSeconds pollIntervalMs conditional

def PGMQTransactionClient.pop {σ : Type} (c : PGMQTransactionClient σ) (queueName : String) :
    TxComp σ (List MessageRecord) :=
  Pgmq.pop c.tx queueName

def PGMQTransactionClient.deleteMessage {σ : Type} (c : PGMQTransactionClient σ)
    (queueName : String) (msgId : Int) : TxComp σ Bool :=
  Pgmq.deleteMessage c.tx queueName msgId

def PGMQTransactionClient.deleteBatch {σ : Type} (c : PGMQTransactionClient σ)
    (queueName : String) (msgIds : List Int) : TxComp σ (List Int) :=
  Pgmq.deleteBatch c.tx queueName msgIds

def PGMQTransactionClient.purgeQueue {σ : Type} (c : PGMQTransactionClient σ)
    (queueName : String) : TxComp σ Int :=
  Pgmq.purgeQueue c.tx queueName

def PGMQTransactionClient.archive {σ : Type} (c : PGMQTransactionClient σ) (queueName : String)
    (msgId : Int) : TxComp σ Bool :=
  Pgmq.archive c.tx queueName msgId

def PGMQTransactionClient.archiveBatch {σ : Type} (c : PGMQTransactionClient σ)
    (queueName : String) (msgIds : List Int) : TxComp σ (List Int) :=
  Pgmq.archiveBatch c.tx queueName msgIds

def PGMQTransactionClient.createQueue {σ : Type} (c : PGMQTransactionClient σ)
    (queueName : String) : TxComp σ Unit :=
  Pgmq.createQueue c.tx queueName

def PGMQTransactionClient.createPartitionedQueue {σ : Type} (c : PGMQTransactionClient σ)
    (queueName : String) (partitionInterval : String := "10000")
    (retentionInterval : String := "100000") : TxComp σ Unit :=
  Pgmq.createPartitionedQueue c.tx queueName partitionInterval retentionInterval

def PGMQTransactionClient.createUnloggedQueue {σ : Type} (c : PGMQTransactionClient σ)
    (queueName : String) : TxComp σ Unit :=
  Pgmq.createUnloggedQueue c.tx queueName

def PGMQTransactionClient.detachArchive {σ : Type} (c : PGMQTransactionClient σ)
    (queueName : String) : TxComp σ Unit :=
  Pgmq.detachArchive c.tx queueName

def PGMQTransactionClient.dropQueue {σ : Type} (c : PGMQTransactionClient σ)
    (queueName : String) : TxComp σ Bool :=
  Pgmq.dropQueue c.tx queueName

def PGMQTransactionClient.setVt {σ : Type} (c : PGMQTransactionClient σ) (queueName : String)
    (msgId vtOffset : Int) : TxComp σ MessageRecord :=
  Pgmq.setVt c.tx queueName msgId vtOffset

def PGMQTransactionClient.listQueues {σ : Type} (c : PGMQTransactionClient σ) :
    TxComp σ (List QueueInfo) :=
  Pgmq.listQueues c.tx

def PGMQTransactionClient.metrics {σ : Type} (c : PGMQTransactionClient σ) (queueName : String) :
    TxComp σ QueueMetrics :=
  Pgmq.metrics c.tx queueName

def PGMQTransactionClient.metricsAll {σ : Type} (c : PGMQTransactionClient σ) :
    TxComp σ (List QueueMetrics) :=
  Pgmq.metricsAll c.tx

/-- PrismaPGMQ.transaction: runs the callback on a fresh bound facade
inside one Prisma transaction, with no catching or wrapping of failures
by the client itself. -/
def PrismaPGMQ.transaction {σ α : Type} (c : PrismaPGMQ σ)
    (callback : PGMQTransactionClient σ → TxComp σ α) : TxComp σ α := fun s =>
  prismaTransaction c.prisma s (fun tx => callback ⟨tx⟩)

-- Convenience methods of PrismaPGMQ: each opens a fresh transaction
-- scope and delegates to the bound facade, with the same defaults.

def PrismaPGMQ.send {σ : Type} (c : PrismaPGMQ σ) (queueName : String) (msg : Task)
    (delay : Option DelayArg := none) : TxComp σ Int :=
  c.transaction (fun tx => tx.send queueName msg delay)

def PrismaPGMQ.sendBatch {σ : Type} (c : PrismaPGMQ σ) (queueName : String) (msgs : List Task)
    (delay : Option DelayArg := none) : TxComp σ (List Int) :=
  c.transaction (fun tx => tx.sendBatch queueName msgs delay)

def PrismaPGMQ.read {σ : Type} (c : PrismaPGMQ σ) (queueName : String) (vt : Int)
    (qty : Int := 1) (conditional : Task := []) : TxComp σ (List MessageRecord) :=
  c.transaction (fun tx => tx.read queueName vt qty conditional)

def PrismaPGMQ.readWithPoll {σ : Type} (c : PrismaPGMQ σ) (queueName : String) (vt : Int)
    (qty : Int := 1) (maxPollSeconds : Int := 5) (pollIntervalMs : Int := 100)
    (conditional : Task := []) : TxComp σ (List MessageRecord) :=
  c.transaction (fun tx => tx.readWithPoll queueName vt qty maxPollSeconds pollIntervalMs conditional)

def PrismaPGMQ.pop {σ : Type} (c : PrismaPGMQ σ) (queueName : String) :
    TxComp σ (List MessageRecord) :=
  c.transaction (fun tx => tx.pop queueName)

def PrismaPGMQ.deleteMessage {σ : Type} (c : PrismaPGMQ σ) (queueName : String) (msgId : Int) :
    TxComp σ Bool :=
  c.transaction (fun tx => tx.deleteMessage queueName msgId)

def PrismaPGMQ.deleteBatch {σ : Type} (c : PrismaPGMQ σ) (queueName : String)
    (msgIds : List Int) : TxComp σ (List Int) :=
  c.transaction (fun tx => tx.deleteBatch queueName msgIds)

def PrismaPGMQ.purgeQueue {σ : Type} (c : PrismaPGMQ σ) (queueName : String) : TxComp σ Int :=
  c.transaction (fun tx => tx.purgeQueue queueName)

def PrismaPGMQ.archive {σ : Type} (c : PrismaPGMQ σ) (queueName : String) (msgId : Int) :
    TxComp σ Bool :=
  c.transaction (fun tx => tx.archive queueName msgId)

def PrismaPGMQ.archiveBatch {σ : Type} (c : PrismaPGMQ σ) (queueName : String)
    (msgIds : List Int) : TxComp σ (List Int) :=
  c.transaction (fun tx => tx.archiveBatch queueName msgIds)

def PrismaPGMQ.createQueue {σ : Type} (c : PrismaPGMQ σ) (queueName : String) : TxComp σ Unit :=
  c.transaction (fun tx => tx.createQueue queueName)

def PrismaPGMQ.createPartitionedQueue {σ : Type} (c : PrismaPGMQ σ) (queueName : String)
    (partitionInterval : String := "10000") (retentionInterval : String := "100000") :
    TxComp σ Unit :=
  c.transaction (fun tx => tx.createPartitionedQueue queueName partitionInterval retentionInterval)

def PrismaPGMQ.createUnloggedQueue {σ : Type} (c : PrismaPGMQ σ) (queueName : String) :
    TxComp σ Unit :=
  c.transaction (fun tx => tx.createUnloggedQueue queueName)

def PrismaPGMQ.detachArchive {σ : Type} (c : PrismaPGMQ σ) (queueName : String) :
    TxComp σ Unit :=
  c.transaction (fun tx => tx.detachArchive queueName)

def PrismaPGMQ.dropQueue {σ : Type} (c : PrismaPGMQ σ) (queueName : String) : TxComp σ Bool :=
  c.transaction (fun tx => tx.dropQueue queueName)

def PrismaPGMQ.setVt {σ : Type} (c : PrismaPGMQ σ) (queueName : String) (msgId vtOffset : Int) :
    TxComp σ MessageRecord :=
  c.transaction (fun tx => tx.setVt queueName msgId vtOffset)

def PrismaPGMQ.listQueues {σ : Type} (c : PrismaPGMQ σ) : TxComp σ (List QueueInfo) :=
  c.transaction (fun tx => tx.listQueues)

def PrismaPGMQ.metrics {σ : Type} (c : PrismaPGMQ σ) (queueName : String) :
    TxComp σ QueueMetrics :=
  c.transaction (fun tx => tx.metrics queueName)

def PrismaPGMQ.metricsAll {σ : Type} (c : PrismaPGMQ σ) : TxComp σ (List QueueMetrics) :=
  c.transaction (fun tx => tx.metricsAll)

namespace PgmqExtension

-- The default-exported Prisma extension (src/pgmq-extension.ts):
-- every method of the extension client's namespace calls the Operation
-- Layer function directly on the extended client handle, with no
-- transaction wrapper.

def send {σ : Type} (client : Engine σ) (queueName : String) (msg : Task)
    (delay : Option DelayArg := none) : TxComp σ Int :=
  Pgmq.send client queueName msg delay

def sendBatch {σ : Type} (client : Engine σ) (queueName : String) (msgs : List Task)
    (delay : Option DelayArg := none) : TxComp σ (List Int) :=
  Pgmq.sendBatch client queueName msgs delay

def read {σ : Type} (client : Engine σ) (queueName : String) (vt : Int) (qty : Int := 1)
    (conditional : Task := []) : TxComp σ (List MessageRecord) :=
  Pgmq.read client queueName vt qty conditional

def readWithPoll {σ : Type} (client : Engine σ) (queueName : String) (vt : Int) (qty : Int := 1)
    (maxPollSeconds : Int := 5) (pollIntervalMs : Int := 100) (conditional : Task := []) :
    TxComp σ (List MessageRecord) :=
  Pgmq.readWithPoll client queueName vt qty maxPollSeconds pollIntervalMs conditional

def pop {σ : Type} (client : Engine σ) (queueName : String) : TxComp σ (List MessageRecord) :=
  Pgmq.pop client queueName

def deleteMessage {σ : Type} (client : Engine σ) (queueName : String) (msgId : Int) :
    TxComp σ Bool :=
  Pgmq.deleteMessage client queueName msgId

def deleteBatch {σ : Type} (client : Engine σ) (queueName : String) (msgIds : List Int) :
    TxComp σ (List Int) :=
  Pgmq.deleteBatch client queueName msgIds

def purgeQueue {σ : Type} (client : Engine σ) (queueName : String) : TxComp σ Int :=
  Pgmq.purgeQueue client queueName

def archive {σ : Type} (client : Engine σ) (queueName : String) (msgId : Int) : TxComp σ Bool :=
  Pgmq.archive client queueName msgId

def archiveBatch {σ : Type} (client : Engine σ) (queueName : String) (msgIds : List Int) :
    TxComp σ (List Int) :=
  Pgmq.archiveBatch client queueName msgIds

def createQueue {σ : Type} (client : Engine σ) (queueName : String) : TxComp σ Unit :=
  Pgmq.createQueue client queueName

def createPartitionedQueue {σ : Type} (client : Engine σ) (queueName : String)
    (partitionInterval : String := "10000") (retentionInterval : String := "100000") :
    TxComp σ Unit :=
  Pgmq.createPartitionedQueue client queueName partitionInterval retentionInterval

def createUnloggedQueue {σ : Type} (client : Engine σ) (queueName : String) : TxComp σ Unit :=
  Pgmq.createUnloggedQueue client queueName

def detachArchive {σ : Type} (client : Engine σ) (queueName : String) : TxComp σ Unit :=
  Pgmq.detachArchive client queueName

def dropQueue {σ : Type} (client : Engine σ) (queueName : String) : TxComp σ Bool :=
  Pgmq.dropQueue client queueName

def setVt {σ : Type} (client : Engine σ) (queueName : String) (msgId vtOffset : Int) :
    TxComp σ MessageRecord :=
  Pgmq.setVt client queueName msgId vtOffset

def listQueues {σ : Type} (client : Engine σ) : TxComp σ (List QueueInfo) :=
  Pgmq.listQueues client

def metrics {σ : Type} (client : Engine σ) (queueName : String) : TxComp σ QueueMetrics :=
  Pgmq.metrics client queueName

def metricsAll {σ : Type} (client : Engine σ) : TxComp σ (List QueueMetrics) :=
  Pgmq.metricsAll client

end PgmqExtension

/-! Reference model of the engine's delete primitive and concrete
engines used to exercise the theorems on closed inputs. -/

/-- The queue contents of the reference engine state: queue name paired
with the ids of the messages currently present. -/
abbrev RefState := List (String × List Int)

/-- Whether a message id is present in a queue's id list. -/
def hasId (ids : List Int) (id : Int) : Bool :=
  match ids with
  | [] => false
  | j :: rest => if j = id then true else hasId rest id

/-- Remove every occurrence of an id from a queue's id list. -/
def dropId (ids : List Int) (id : Int) : List Int :=
  match ids with
  | [] => []
  | j :: rest => if j = id then dropId rest id else j :: dropId rest id

/-- Look up a queue's id list by name (first match). -/
def lookupQueue (s : RefState) (name : String) : Option (List Int) :=
  match s with
  | [] => none
  | p :: rest => if p.1 = name then some p.2 else lookupQueue rest name

/-- Remove an id from the named queue in the reference state. -/
def removeId (s : RefState) (name : String) (id : Int) : RefState :=
  match s with
  | [] => []
  | p :: rest =>
    if p.1 = name then (p.1, dropId p.2 id) :: removeId rest name id
    else p :: removeId rest name id

/-- Modelled from the spec: the external engine's delete primitive
(outside this repository).  On an existing queue it returns one boolean
row saying whether the id was present, removing it if so; a missing id
yields the row false, not an error.  A missing queue is rejected with an
engine error. -/
def refDeleteStep (s : RefState) (name : String) (id : Int) :
    Except String (List Bool) × RefState :=
  match lookupQueue s name with
  | none => (Except.error "queue does not exist", s)
  | some ids => (Except.ok [hasId ids id], removeId s name id)

/-- Dispatch of boolean-row queries for the reference engine: only the
delete primitive is modelled. -/
def refQueryBool (q : Query) (s : RefState) : Except String (List Bool) × RefState :=
  match q.args with
  | [Arg.queue name, Arg.intCast id] =>
    if q.fname = "pgmq.delete" then refDeleteStep s name id
    else (Except.error "unsupported query", s)
  | _ => (Except.error "unsupported query", s)

/-- Modelled from the spec: a reference engine whose delete primitive
follows the boundary contract; every other primitive is rejected. -/
def refDeleteEngine : Engine RefState :=
  ⟨fun _ s => (Except.error "unsupported query", s),
   refQueryBool,
   fun _ s => (Except.error "unsupported query", s),
   fun _ s => (Except.error "unsupported query", s),
   fun _ s => (Except.error "unsupported query", s),
   fun _ s => (Except.error "unsupported query", s)⟩

/-- A fixed message record used by the concrete engines. -/
def msg0 : MessageRecord := ⟨1, 1, 0, 0, []⟩

/-- A fixed metrics row used by the concrete engines. -/
def metrics0 : QueueMetrics := ⟨"q", 0, none, none, 0, 0⟩

/-- A stateless engine answering every query with exactly one row. -/
def oneRowEngine : Engine Unit :=
  ⟨fun _ s => (Except.ok [7], s),
   fun _ s => (Except.ok [true], s),
   fun _ s => (Except.ok [msg0], s),
   fun _ s => (Except.ok [metrics0], s),
   fun _ s => (Except.ok [], s),
   fun _ s => (Except.ok 0, s)⟩

/-- A stateless engine answering every query with zero rows. -/
def emptyEngine : Engine Unit :=
  ⟨fun _ s => (Except.ok [], s),
   fun _ s => (Except.ok [], s),
   fun _ s => (Except.ok [], s),
   fun _ s => (Except.ok [], s),
   fun _ s => (Except.ok [], s),
   fun _ s => (Except.ok 0, s)⟩

/-- An engine over an integer state that bumps the state and then fails
every query: it makes committed and rolled-back states observably
different. -/
def countEngine : Engine Int :=
  ⟨fun _ s => (Except.error "boom", s + 1),
   fun _ s => (Except.error "boom", s + 1),
   fun _ s => (Except.error "boom", s + 1),
   fun _ s => (Except.error "boom", s + 1),
   fun _ s => (Except.error "boom", s + 1),
   fun _ s => (Except.error "boom", s + 1)⟩

/-! Helper lemmas for the reference delete model. -/

theorem hasId_dropId (ids : List Int) (id : Int) : hasId (dropId ids id) id = false := by
  induction ids with
  | nil => rfl
  | cons j rest ih =>
    by_cases h : j = id
    · simp [dropId, h, ih]
    · simp [dropId, hasId, h, ih]

theorem lookupQueue_removeId (s : RefState) (name : String) (id : Int) (ids : List Int)
    (h : lookupQueue s name = some ids) :
    lookupQueue (removeId s name id) name = some (dropId ids id) := by
  induction s with
  | nil => simp [lookupQueue] at h
  | cons p rest ih =>
    by_cases hp : p.1 = name
    · simp [lookupQueue, hp] at h
      simp [removeId, lookupQueue, hp, h]
    · simp [lookupQueue, hp] at h
      simp [removeId, lookupQueue, hp, ih h]

/-! The claims. -/

/-- Claim C1: for every callback passed to PrismaPGMQ.transaction, if the
callback completes normally its result is returned and the state it
produced is committed; if any operation inside the callback raises a
failure, the state is rolled back to the initial one and the original
failure is re-raised to the caller unchanged, with no catching, wrapping
or suppression by the client. -/
theorem claim_C1_transaction_commit_rollback {σ α : Type} (c : PrismaPGMQ σ) (s : σ)
    (callback : PGMQTransactionClient σ → TxComp σ α) :
    (∀ (a : α) (s2 : σ) (tr : List Query), callback ⟨c.prisma⟩ s = (Except.ok a, s2, tr) →
      c.transaction callback s = (Except.ok a, s2, tr)) ∧
    (∀ (e : Err) (s2 : σ) (tr : List Query), callback ⟨c.prisma⟩ s = (Except.error e, s2, tr) →
      c.transaction callback s = (Except.error e, s, tr)) := by
  constructor
  · intro a s2 tr h
    simp [PrismaPGMQ.transaction, prismaTransaction, h]
  · intro e s2 tr h
    simp [PrismaPGMQ.transaction, prismaTransaction, h]

/-- Witness for claim C1 at concrete inputs: a successful send commits
the callback's result, and a failing engine call rolls the counting
engine's state back to 0 while re-raising the engine failure unchanged. -/
theorem claim_C1_transaction_commit_rollback_witness :
    (PrismaPGMQ.mk oneRowEngine).transaction (fun f => f.send "q" [] none) () =
      (Except.ok 7, (), [Pgmq.sendQuery "q" [] none]) ∧
    (PrismaPGMQ.mk countEngine).transaction (fun f => f.send "q" [] none) 0 =
      (Except.error (Err.engine "boom"), 0, [Pgmq.sendQuery "q" [] none]) :=
  ⟨(claim_C1_transaction_commit_rollback (PrismaPGMQ.mk oneRowEngine) ()
      (fun f => f.send "q" [] none)).1 7 () [Pgmq.sendQuery "q" [] none] rfl,
   (claim_C1_transaction_commit_rollback (PrismaPGMQ.mk countEngine) 0
      (fun f => f.send "q" [] none)).2 (Err.engine "boom") 1 [Pgmq.sendQuery "q" [] none] rfl⟩

/-- Claim C2: every public method of the Convenience Client PrismaPGMQ
equals opening one fresh Transaction Scope and evaluating the Bound
Client Facade method on it, which in turn equals the Operation Layer
function applied to the pinned transaction handle with the same
arguments and the same defaults; the result is returned unchanged. -/
theorem claim_C2_convenience_pure_delegation {σ : Type} (c : PrismaPGMQ σ) (q p rt : String)
    (m : Task) (ms : List Task) (d : Option DelayArg) (vt qty mw pi id off : Int)
    (cond : Task) (ids : List Int) :
    (c.send q m d = c.transaction (fun f => f.send q m d) ∧
      c.send q m d = fun s => prismaTransaction c.prisma s (fun tx => Pgmq.send tx q m d)) ∧
    (c.sendBatch q ms d = c.transaction (fun f => f.sendBatch q ms d) ∧
      c.sendBatch q ms d = fun s => prismaTransaction c.prisma s (fun tx => Pgmq.sendBatch tx q ms d)) ∧
    (c.read q vt qty cond = c.transaction (fun f => f.read q vt qty cond) ∧
      c.read q vt qty cond = (fun s => prismaTransaction c.prisma s (fun tx => Pgmq.read tx q vt qty cond)) ∧
      c.read q vt = fun s => prismaTransaction c.prisma s (fun tx => Pgmq.read tx q vt)) ∧
    (c.readWithPoll q vt qty mw pi cond = c.transaction (fun f => f.readWithPoll q vt qty mw pi cond) ∧
      c.readWithPoll q vt qty mw pi cond =
        (fun s => prismaTransaction c.prisma s (fun tx => Pgmq.readWithPoll tx q vt qty mw pi cond)) ∧
      c.readWithPoll q vt = fun s => prismaTransaction c.prisma s (fun tx => Pgmq.readWithPoll tx q vt)) ∧
    (c.pop q = c.transaction (fun f => f.pop q) ∧
      c.pop q = fun s => prismaTransaction c.prisma s (fun tx => Pgmq.pop tx q)) ∧
    (c.deleteMessage q id = c.transaction (fun f => f.deleteMessage q id) ∧
      c.deleteMessage q id = fun s => prismaTransaction c.prisma s (fun tx => Pgmq.deleteMessage tx q id)) ∧
    (c.deleteBatch q ids = c.transaction (fun f => f.deleteBatch q ids) ∧
      c.deleteBatch q ids = fun s => prismaTransaction c.prisma s (fun tx => Pgmq.deleteBatch tx q ids)) ∧
    (c.purgeQueue q = c.transaction (fun f => f.purgeQueue q) ∧
      c.purgeQueue q = fun s => prismaTransaction c.prisma s (fun tx => Pgmq.purgeQueue tx q)) ∧
    (c.archive q id = c.transaction (fun f => f.archive q id) ∧
      c.archive q id = fun s => prismaTransaction c.prisma s (fun tx => Pgmq.archive tx q id)) ∧
    (c.archiveBatch q ids = c.transaction (fun f => f.archiveBatch q ids) ∧
      c.archiveBatch q ids = fun s => prismaTransaction c.prisma s (fun tx => Pgmq.archiveBatch tx q ids)) ∧
    (c.createQueue q = c.transaction (fun f => f.createQueue q) ∧
      c.createQueue q = fun s => prismaTransaction c.prisma s (fun tx => Pgmq.createQueue tx q)) ∧
    (c.createPartitionedQueue q p rt = c.transaction (fun f => f.createPartitionedQueue q p rt) ∧
      c.createPartitionedQueue q p rt =
        (fun s => prismaTransaction c.prisma s (fun tx => Pgmq.createPartitionedQueue tx q p rt)) ∧
      c.createPartitionedQueue q =
        fun s => prismaTransaction c.prisma s (fun tx => Pgmq.createPartitionedQueue tx q)) ∧
    (c.createUnloggedQueue q = c.transaction (fun f => f.createUnloggedQueue q) ∧
      c.createUnloggedQueue q = fun s => prismaTransaction c.prisma s (fun tx => Pgmq.createUnloggedQueue tx q)) ∧
    (c.detachArchive q = c.transaction (fun f => f.detachArchive q) ∧
      c.detachArchive q = fun s => prismaTransaction c.prisma s (fun tx => Pgmq.detachArchive tx q)) ∧
    (c.dropQueue q = c.transaction (fun f => f.dropQueue q) ∧
      c.dropQueue q = fun s => prismaTransaction c.prisma s (fun tx => Pgmq.dropQueue tx q)) ∧
    (c.setVt q id off = c.transaction (fun f => f.setVt q id off) ∧
      c.setVt q id off = fun s => prismaTransaction c.prisma s (fun tx => Pgmq.setVt tx q id off)) ∧
    (c.listQueues = c.transaction (fun f => f.listQueues) ∧
      c.listQueues = fun s => prismaTransaction c.prisma s (fun tx => Pgmq.listQueues tx)) ∧
    (c.metrics q = c.transaction (fun f => f.metrics q) ∧
      c.metrics q = fun s => prismaTransaction c.prisma s (fun tx => Pgmq.metrics tx q)) ∧
    (c.metricsAll = c.transaction (fun f => f.metricsAll) ∧
      c.metricsAll = fun s => prismaTransaction c.prisma s (fun tx => Pgmq.metricsAll tx)) :=
  ⟨⟨rfl, rfl⟩, ⟨rfl, rfl⟩, ⟨rfl, rfl, rfl⟩, ⟨rfl, rfl, rfl⟩, ⟨rfl, rfl⟩, ⟨rfl, rfl⟩,
   ⟨rfl, rfl⟩, ⟨rfl, rfl⟩, ⟨rfl, rfl⟩, ⟨rfl, rfl⟩, ⟨rfl, rfl⟩, ⟨rfl, rfl, rfl⟩,
   ⟨rfl, rfl⟩, ⟨rfl, rfl⟩, ⟨rfl, rfl⟩, ⟨rfl, rfl⟩, ⟨rfl, rfl⟩, ⟨rfl, rfl⟩, ⟨rfl, rfl⟩⟩

/-- Claim C3: send, metrics and setVt return the value carried by the
single row when the engine returns exactly one row, and fail exactly
when the engine returns zero rows; the zero-row failure is the
client-constructed protocol error, an error kind distinct from the
engine error kind, so a caller can tell the two apart. -/
theorem claim_C3_single_row_contract {σ : Type} (tx : Engine σ) (s s2 : σ) (q : String)
    (m : Task) (d : Option DelayArg) (id off r : Int) (mr : MessageRecord)
    (qm : QueueMetrics) :
    (tx.queryIntRows (Pgmq.sendQuery q m d) s = (Except.ok [r], s2) →
      Pgmq.send tx q m d s = (Except.ok r, s2, [Pgmq.sendQuery q m d])) ∧
    (tx.queryIntRows (Pgmq.sendQuery q m d) s = (Except.ok [], s2) →
      Pgmq.send tx q m d s =
        (Except.error (Err.protocol "No result returned from pgmq.send"), s2,
          [Pgmq.sendQuery q m d])) ∧
    (tx.queryMetricsRows (Pgmq.metricsQuery q) s = (Except.ok [qm], s2) →
      Pgmq.metrics tx q s = (Except.ok qm, s2, [Pgmq.metricsQuery q])) ∧
    (tx.queryMetricsRows (Pgmq.metricsQuery q) s = (Except.ok [], s2) →
      Pgmq.metrics tx q s =
        (Except.error (Err.protocol "No result returned from pgmq.metrics"), s2,
          [Pgmq.metricsQuery q])) ∧
    (tx.queryMsgRows (Pgmq.setVtQuery q id off) s = (Except.ok [mr], s2) →
      Pgmq.setVt tx q id off s = (Except.ok mr, s2, [Pgmq.setVtQuery q id off])) ∧
    (tx.queryMsgRows (Pgmq.setVtQuery q id off) s = (Except.ok [], s2) →
      Pgmq.setVt tx q id off s =
        (Except.error (Err.protocol "No result returned from pgmq.set_vt"), s2,
          [Pgmq.setVtQuery q id off])) ∧
    (∀ m1 m2 : String, Err.protocol m1 ≠ Err.engine m2) := by
  refine ⟨?_, ?_, ?_, ?_, ?_, ?_, ?_⟩
  · intro h; simp [Pgmq.send, h]
  · intro h; simp [Pgmq.send, h]
  · intro h; simp [Pgmq.metrics, h]
  · intro h; simp [Pgmq.metrics, h]
  · intro h; simp [Pgmq.setVt, h]
  · intro h; simp [Pgmq.setVt, h]
  · intro m1 m2 h; exact Err.noConfusion h

/-- Witness for claim C3 at concrete engines: the one-row engine yields
the row's value for send, metrics and setVt, the zero-row engine yields
the protocol error for all three, and the two error kinds differ. -/
theorem claim_C3_single_row_contract_witness :
    Pgmq.send oneRowEngine "q" [] none () = (Except.ok 7, (), [Pgmq.sendQuery "q" [] none]) ∧
    Pgmq.send emptyEngine "q" [] none () =
      (Except.error (Err.protocol "No result returned from pgmq.send"), (),
        [Pgmq.sendQuery "q" [] none]) ∧
    Pgmq.metrics oneRowEngine "q" () = (Except.ok metrics0, (), [Pgmq.metricsQuery "q"]) ∧
    Pgmq.metrics emptyEngine "q" () =
      (Except.error (Err.protocol "No result returned from pgmq.metrics"), (),
        [Pgmq.metricsQuery "q"]) ∧
    Pgmq.setVt oneRowEngine "q" 1 30 () = (Except.ok msg0, (), [Pgmq.setVtQuery "q" 1 30]) ∧
    Pgmq.setVt emptyEngine "q" 1 30 () =
      (Except.error (Err.protocol "No result returned from pgmq.set_vt"), (),
        [Pgmq.setVtQuery "q" 1 30]) ∧
    Err.protocol "No result returned from pgmq.send" ≠ Err.engine "boom" :=
  ⟨(claim_C3_single_row_contract oneRowEngine () () "q" [] none 1 30 7 msg0 metrics0).1 rfl,
   (claim_C3_single_row_contract emptyEngine () () "q" [] none 1 30 7 msg0 metrics0).2.1 rfl,
   (claim_C3_single_row_contract oneRowEngine () () "q" [] none 1 30 7 msg0 metrics0).2.2.1 rfl,
   (claim_C3_single_row_contract emptyEngine () () "q" [] none 1 30 7 msg0 metrics0).2.2.2.1 rfl,
   (claim_C3_single_row_contract oneRowEngine () () "q" [] none 1 30 7 msg0 metrics0).2.2.2.2.1 rfl,
   (claim_C3_single_row_contract emptyEngine () () "q" [] none 1 30 7 msg0 metrics0).2.2.2.2.2.1 rfl,
   (claim_C3_single_row_contract emptyEngine () () "q" [] none 1 30 7 msg0 metrics0).2.2.2.2.2.2
     "No result returned from pgmq.send" "boom"⟩

/-- Claim C4: sendBatch on the empty payload list returns the empty id
list and raises no error, given that the engine returns one row per
enqueued input and hence zero rows here; the one query is still issued
(an empty batch is a valid no-op, not an error condition). -/
theorem claim_C4_sendBatch_empty {σ : Type} (tx : Engine σ) (s s2 : σ) (q : String)
    (d : Option DelayArg)
    (h : tx.queryIntRows (Pgmq.sendBatchQuery q [] d) s = (Except.ok [], s2)) :
    Pgmq.sendBatch tx q [] d s = (Except.ok [], s2, [Pgmq.sendBatchQuery q [] d]) := by
  simp [Pgmq.sendBatch, h]

/-- Witness for claim C4: the zero-row engine on the empty batch. -/
theorem claim_C4_sendBatch_empty_witness :
    Pgmq.sendBatch emptyEngine "q" [] none () =
      (Except.ok [], (), [Pgmq.sendBatchQuery "q" [] none]) :=
  claim_C4_sendBatch_empty emptyEngine () () "q" none rfl

/-- Claim C5: every Operation Layer function, on every input (including
deleteBatch and archiveBatch on an empty id list), issues exactly one
query to the external engine per invocation, the one named in its
source, regardless of the engine's reply; none retries internally. -/
theorem claim_C5_exactly_one_roundtrip {σ : Type} (tx : Engine σ) (s : σ) (q p rt : String)
    (m cond : Task) (ms : List Task) (d : Option DelayArg) (vt qty mw pi id off : Int)
    (ids : List Int) :
    (Pgmq.send tx q m d s).2.2 = [Pgmq.sendQuery q m d] ∧
    (Pgmq.sendBatch tx q ms d s).2.2 = [Pgmq.sendBatchQuery q ms d] ∧
    (Pgmq.read tx q vt qty cond s).2.2 = [Pgmq.readQuery q vt qty cond] ∧
    (Pgmq.readWithPoll tx q vt qty mw pi cond s).2.2 =
      [Pgmq.readWithPollQuery q vt qty mw pi cond] ∧
    (Pgmq.pop tx q s).2.2 = [Pgmq.popQuery q] ∧
    (Pgmq.deleteMessage tx q id s).2.2 = [Pgmq.deleteMessageQuery q id] ∧
    (Pgmq.deleteBatch tx q ids s).2.2 = [Pgmq.deleteBatchQuery q ids] ∧
    (Pgmq.deleteBatch tx q [] s).2.2 = [Pgmq.deleteBatchQuery q []] ∧
    (Pgmq.purgeQueue tx q s).2.2 = [Pgmq.purgeQueueQuery q] ∧
    (Pgmq.archive tx q id s).2.2 = [Pgmq.archiveQuery q id] ∧
    (Pgmq.archiveBatch tx q ids s).2.2 = [Pgmq.archiveBatchQuery q ids] ∧
    (Pgmq.archiveBatch tx q [] s).2.2 = [Pgmq.archiveBatchQuery q []] ∧
    (Pgmq.createQueue tx q s).2.2 = [Pgmq.createQueueQuery q] ∧
    (Pgmq.createPartitionedQueue tx q p rt s).2.2 = [Pgmq.createPartitionedQueueQuery q p rt] ∧
    (Pgmq.createUnloggedQueue tx q s).2.2 = [Pgmq.createUnloggedQueueQuery q] ∧
    (Pgmq.detachArchive tx q s).2.2 = [Pgmq.detachArchiveQuery q] ∧
    (Pgmq.dropQueue tx q s).2.2 = [Pgmq.dropQueueQuery q] ∧
    (Pgmq.setVt tx q id off s).2.2 = [Pgmq.setVtQuery q id off] ∧
    (Pgmq.listQueues tx s).2.2 = [Pgmq.listQueuesQuery] ∧
    (Pgmq.metrics tx q s).2.2 = [Pgmq.metricsQuery q] ∧
    (Pgmq.metricsAll tx s).2.2 = [Pgmq.metricsAllQuery] :=
  ⟨rfl, rfl, rfl, rfl, rfl, rfl, rfl, rfl, rfl, rfl, rfl, rfl, rfl, rfl, rfl, rfl, rfl,
   rfl, rfl, rfl, rfl⟩

/-- Claim C6: every invocation of readWithPoll issues exactly one call
to the engine primitive read_with_poll, with positional arguments in the
order queue, visibility window, limit, maxPollSeconds, pollIntervalMs,
filter, passing the caller's wait parameters verbatim; there is no
client-side wait loop or client-imposed timeout. -/
theorem claim_C6_readWithPoll_delegates_wait {σ : Type} (tx : Engine σ) (s : σ) (q : String)
    (vt qty mw pi : Int) (cond : Task) :
    (Pgmq.readWithPoll tx q vt qty mw pi cond s).2.2 =
      [⟨"pgmq.read_with_poll",
        [Arg.queue q, Arg.intCast vt, Arg.intCast qty, Arg.intCast mw, Arg.intCast pi,
          Arg.task cond]⟩] :=
  rfl

/-- Claim C7: against the spec-modelled engine, deleteMessage returns
false (not an error) when the id is not present in an existing queue,
and calling it twice in sequence on the same present id returns true on
the first call and false on the second. -/
theorem claim_C7_deleteMessage_idempotent (s : RefState) (q : String) (id : Int)
    (ids : List Int) (hq : lookupQueue s q = some ids) :
    (hasId ids id = false →
      Pgmq.deleteMessage refDeleteEngine q id s =
        (Except.ok false, removeId s q id, [Pgmq.deleteMessageQuery q id])) ∧
    (hasId ids id = true →
      (Pgmq.deleteMessage refDeleteEngine q id s).1 = Except.ok true ∧
      (Pgmq.deleteMessage refDeleteEngine q id
        (Pgmq.deleteMessage refDeleteEngine q id s).2.1).1 = Except.ok false) := by
  constructor
  · intro h
    simp [Pgmq.deleteMessage, refDeleteEngine, refQueryBool, Pgmq.deleteMessageQuery,
      refDeleteStep, hq, h]
  · intro h
    have h2 := lookupQueue_removeId s q id ids hq
    constructor
    · simp [Pgmq.deleteMessage, refDeleteEngine, refQueryBool, Pgmq.deleteMessageQuery,
        refDeleteStep, hq, h]
    · simp [Pgmq.deleteMessage, refDeleteEngine, refQueryBool, Pgmq.deleteMessageQuery,
        refDeleteStep, hq, h, h2, hasId_dropId]

/-- Witness for claim C7 on the queue state with one queue holding the
single id 5: deleting id 6 returns false, deleting id 5 twice returns
true then false. -/
theorem claim_C7_deleteMessage_idempotent_witness :
    Pgmq.deleteMessage refDeleteEngine "q" 6 [("q", [5])] =
      (Except.ok false, removeId [("q", [5])] "q" 6, [Pgmq.deleteMessageQuery "q" 6]) ∧
    (Pgmq.deleteMessage refDeleteEngine "q" 5 [("q", [5])]).1 = Except.ok true ∧
    (Pgmq.deleteMessage refDeleteEngine "q" 5
      (Pgmq.deleteMessage refDeleteEngine "q" 5 [("q", [5])]).2.1).1 = Except.ok false :=
  ⟨(claim_C7_deleteMessage_idempotent [("q", [5])] "q" 6 [5] rfl).1 rfl,
   (claim_C7_deleteMessage_idempotent [("q", [5])] "q" 5 [5] rfl).2 rfl⟩

/-- Claim C8: every method of the extension's namespace invokes the
corresponding Operation Layer function directly on the extended client
handle, without opening a transaction scope; the two concluding
conjuncts exhibit a failing engine call whose state mutation the
extension keeps while the Convenience Client's auto-opened transaction
rolls it back. -/
theorem claim_C8_extension_direct_calls {σ : Type} (client : Engine σ) (q p rt : String)
    (m cond : Task) (ms : List Task) (d : Option DelayArg) (vt qty mw pi id off : Int)
    (ids : List Int) :
    PgmqExtension.send client q m d = Pgmq.send client q m d ∧
    PgmqExtension.sendBatch client q ms d = Pgmq.sendBatch client q ms d ∧
    PgmqExtension.read client q vt qty cond = Pgmq.read client q vt qty cond ∧
    PgmqExtension.readWithPoll client q vt qty mw pi cond =
      Pgmq.readWithPoll client q vt qty mw pi cond ∧
    PgmqExtension.pop client q = Pgmq.pop client q ∧
    PgmqExtension.deleteMessage client q id = Pgmq.deleteMessage client q id ∧
    PgmqExtension.deleteBatch client q ids = Pgmq.deleteBatch client q ids ∧
    PgmqExtension.purgeQueue client q = Pgmq.purgeQueue client q ∧
    PgmqExtension.archive client q id = Pgmq.archive client q id ∧
    PgmqExtension.archiveBatch client q ids = Pgmq.archiveBatch client q ids ∧
    PgmqExtension.createQueue client q = Pgmq.createQueue client q ∧
    PgmqExtension.createPartitionedQueue client q p rt =
      Pgmq.createPartitionedQueue client q p rt ∧
    PgmqExtension.createUnloggedQueue client q = Pgmq.createUnloggedQueue client q ∧
    PgmqExtension.detachArchive client q = Pgmq.detachArchive client q ∧
    PgmqExtension.dropQueue client q = Pgmq.dropQueue client q ∧
    PgmqExtension.setVt client q id off = Pgmq.setVt client q id off ∧
    PgmqExtension.listQueues client = Pgmq.listQueues client ∧
    PgmqExtension.metrics client q = Pgmq.metrics client q ∧
    PgmqExtension.metricsAll client = Pgmq.metricsAll client ∧
    PgmqExtension.send countEngine "q" [] none 0 =
      (Except.error (Err.engine "boom"), 1, [Pgmq.sendQuery "q" [] none]) ∧
    (PrismaPGMQ.mk countEngine).send "q" [] none 0 =
      (Except.error (Err.engine "boom"), 0, [Pgmq.sendQuery "q" [] none]) :=
  ⟨rfl, rfl, rfl, rfl, rfl, rfl, rfl, rfl, rfl, rfl, rfl, rfl, rfl, rfl, rfl, rfl, rfl,
   rfl, rfl, rfl, rfl⟩

/-- Claim C9: a delay argument equal to 0 produces exactly the same
engine call as omitting the delay entirely, for send and sendBatch
alike: the delay parameter is appended only when it is truthy, so the
two calls and their results are identical, and the delay-free call
carries no delay argument; a nonzero delay is appended. -/
theorem claim_C9_zero_delay_omitted {σ : Type} (tx : Engine σ) (s : σ) (q : String)
    (m : Task) (ms : List Task) (n : Int) :
    Pgmq.sendQuery q m (some (DelayArg.secs 0)) = Pgmq.sendQuery q m none ∧
    Pgmq.sendBatchQuery q ms (some (DelayArg.secs 0)) = Pgmq.sendBatchQuery q ms none ∧
    Pgmq.send tx q m (some (DelayArg.secs 0)) s = Pgmq.send tx q m none s ∧
    Pgmq.sendBatch tx q ms (some (DelayArg.secs 0)) s = Pgmq.sendBatch tx q ms none s ∧
    Pgmq.sendQuery q m none = ⟨"pgmq.send", [Arg.queue q, Arg.payload m]⟩ ∧
    (n ≠ 0 → Pgmq.sendQuery q m (some (DelayArg.secs n)) =
      ⟨"pgmq.send", [Arg.queue q, Arg.payload m, Arg.intCast n]⟩) := by
  refine ⟨rfl, rfl, rfl, rfl, rfl, ?_⟩
  intro h
  simp [Pgmq.sendQuery, delayArgs, delayTruthy, h]

/-- Witness for claim C9 at the nonzero delay 5. -/
theorem claim_C9_zero_delay_omitted_witness :
    (5 : Int) ≠ 0 ∧
    Pgmq.sendQuery "q" [] (some (DelayArg.secs 5)) =
      ⟨"pgmq.send", [Arg.queue "q", Arg.payload [], Arg.intCast 5]⟩ :=
  ⟨by decide,
   (claim_C9_zero_delay_omitted emptyEngine () "q" [] [] 5).2.2.2.2.2 (by decide)⟩

/-- Claim C10: deleteMessage, purgeQueue, archive and dropQueue also
raise the client-constructed error whenever the engine returns zero
rows, and return the first row's value otherwise, so every single-row
operation of the Operation Layer is total over the engine's possible
row counts. -/
theorem claim_C10_single_row_ops_total {σ : Type} (tx : Engine σ) (s s2 : σ) (q : String)
    (id : Int) (b : Bool) (n : Int) (brest : List Bool) (nrest : List Int) :
    (tx.queryBoolRows (Pgmq.deleteMessageQuery q id) s = (Except.ok (b :: brest), s2) →
      Pgmq.deleteMessage tx q id s = (Except.ok b, s2, [Pgmq.deleteMessageQuery q id])) ∧
    (tx.queryBoolRows (Pgmq.deleteMessageQuery q id) s = (Except.ok [], s2) →
      Pgmq.deleteMessage tx q id s =
        (Except.error (Err.protocol "No result returned from pgmq.delete"), s2,
          [Pgmq.deleteMessageQuery q id])) ∧
    (tx.queryIntRows (Pgmq.purgeQueueQuery q) s = (Except.ok (n :: nrest), s2) →
      Pgmq.purgeQueue tx q s = (Except.ok n, s2, [Pgmq.purgeQueueQuery q])) ∧
    (tx.queryIntRows (Pgmq.purgeQueueQuery q) s = (Except.ok [], s2) →
      Pgmq.purgeQueue tx q s =
        (Except.error (Err.protocol "No result returned from pgmq.purge_queue"), s2,
          [Pgmq.purgeQueueQuery q])) ∧
    (tx.queryBoolRows (Pgmq.archiveQuery q id) s = (Except.ok (b :: brest), s2) →
      Pgmq.archive tx q id s = (Except.ok b, s2, [Pgmq.archiveQuery q id])) ∧
    (tx.queryBoolRows (Pgmq.archiveQuery q id) s = (Except.ok [], s2) →
      Pgmq.archive tx q id s =
        (Except.error (Err.protocol "No result returned from pgmq.archive"), s2,
          [Pgmq.archiveQuery q id])) ∧
    (tx.queryBoolRows (Pgmq.dropQueueQuery q) s = (Except.ok (b :: brest), s2) →
      Pgmq.dropQueue tx q s = (Except.ok b, s2, [Pgmq.dropQueueQuery q])) ∧
    (tx.queryBoolRows (Pgmq.dropQueueQuery q) s = (Except.ok [], s2) →
      Pgmq.dropQueue tx q s =
        (Except.error (Err.protocol "No result returned from pgmq.drop_queue"), s2,
          [Pgmq.dropQueueQuery q])) := by
  refine ⟨?_, ?_, ?_, ?_, ?_, ?_, ?_, ?_⟩
  · intro h; simp [Pgmq.deleteMessage, h]
  · intro h; simp [Pgmq.deleteMessage, h]
  · intro h; simp [Pgmq.purgeQueue, h]
  · intro h; simp [Pgmq.purgeQueue, h]
  · intro h; simp [Pgmq.archive, h]
  · intro h; simp [Pgmq.archive, h]
  · intro h; simp [Pgmq.dropQueue, h]
  · intro h; simp [Pgmq.dropQueue, h]

/-- Witness for claim C10 on the one-row and zero-row engines. -/
theorem claim_C10_single_row_ops_total_witness :
    Pgmq.deleteMessage oneRowEngine "q" 5 () =
      (Except.ok true, (), [Pgmq.deleteMessageQuery "q" 5]) ∧
    Pgmq.deleteMessage emptyEngine "q" 5 () =
      (Except.error (Err.protocol "No result returned from pgmq.delete"), (),
        [Pgmq.deleteMessageQuery "q" 5]) ∧
    Pgmq.purgeQueue oneRowEngine "q" () = (Except.ok 7, (), [Pgmq.purgeQueueQuery "q"]) ∧
    Pgmq.purgeQueue emptyEngine "q" () =
      (Except.error (Err.protocol "No result returned from pgmq.purge_queue"), (),
        [Pgmq.purgeQueueQuery "q"]) ∧
    Pgmq.archive oneRowEngine "q" 5 () = (Except.ok true, (), [Pgmq.archiveQuery "q" 5]) ∧
    Pgmq.archive emptyEngine "q" 5 () =
      (Except.error (Err.protocol "No result returned from pgmq.archive"), (),
        [Pgmq.archiveQuery "q" 5]) ∧
    Pgmq.dropQueue oneRowEngine "q" () = (Except.ok true, (), [Pgmq.dropQueueQuery "q"]) ∧
    Pgmq.dropQueue emptyEngine "q" () =
      (Except.error (Err.protocol "No result returned from pgmq.drop_queue"), (),
        [Pgmq.dropQueueQuery "q"]) :=
  ⟨(claim_C10_single_row_ops_total oneRowEngine () () "q" 5 true 7 [] []).1 rfl,
   (claim_C10_single_row_ops_total emptyEngine () () "q" 5 true 7 [] []).2.1 rfl,
   (claim_C10_single_row_ops_total oneRowEngine () () "q" 5 true 7 [] []).2.2.1 rfl,
   (claim_C10_single_row_ops_total emptyEngine () () "q" 5 true 7 [] []).2.2.2.1 rfl,
   (claim_C10_single_row_ops_total oneRowEngine () () "q" 5 true 7 [] []).2.2.2.2.1 rfl,
   (claim_C10_single_row_ops_total emptyEngine () () "q" 5 true 7 [] []).2.2.2.2.2.1 rfl,
   (claim_C10_single_row_ops_total oneRowEngine () () "q" 5 true 7 [] []).2.2.2.2.2.2.1 rfl,
   (claim_C10_single_row_ops_total emptyEngine () () "q" 5 true 7 [] []).2.2.2.2.2.2.2 rfl⟩
